import Mathlib

/-!
# Boost.LLVM: the declared interface of `boost_llvm.cpp` and `details.hpp`

The repository is an interface sketch: every class, operator and function is
declared and almost none is defined.  The development below embeds

* the declarations themselves, as tables of member declarations that follow
  the source line by line (`class value`, `class const_ref`, `class ref`,
  `struct switch_`, the control-flow functions, the constant creators of
  `class type`);
* the macros `BOOST_LLVM_INIT_LIST_kD` of `details.hpp`;
* the function template `type::get<T>`, which has a body;
* the constructors of `string_refs` and the trait `detail::is_typed_sequence`
  of `details.hpp`, which have bodies too;
* the C++ rules needed to read the declarations (candidate selection for a
  copy, member access, reference collapsing, `std::remove_reference`,
  `std::remove_cv`, the choice of the better of two viable functions).

Behaviour whose code is absent from the repository (emission of loads and
stores, the symbol table) is modelled from the specification and marked so.
-/

namespace BoostLLVM

/-! ## C++ types as they are written in signatures -/

/-- The types that occur in the signatures of `boost_llvm.cpp`. -/
inductive CppType where
  | void_
  | size_t
  | int64_t
  | nullptr_t
  | string_ref
  | string_refs
  | type
  | value
  | ref
  | const_ref
  | initializer
  | label
  | code
  | loop_test
  | switch_
  | symbol_name
  | llvm_Value_ptr
  | llvm_Type_ptr
  /-- A template type parameter, `T`. -/
  | tparam (name : String)
  /-- A forwarded parameter pack, `Args &&...`. -/
  | pack (name : String)
  /-- The tuple over a pack, `std::tuple<Ts...>`. -/
  | std_tuple (packName : String)
  | array_ref (elem : CppType)
  | initializer_list (elem : CppType)
  /-- An lvalue reference to const, `T const &`. -/
  | const_lref (referent : CppType)
  /-- An lvalue reference, `T &`. -/
  | lref (referent : CppType)
  /-- An rvalue reference, `T &&`. -/
  | rref (referent : CppType)
  deriving DecidableEq, Repr

/-- Member access, as set by the `public:` and `private:` labels. -/
inductive Access where
  | pub
  | priv
  deriving DecidableEq, Repr

/-- How a declaration ends: plain `;`, `= delete`, `= default`, or a body. -/
inductive Definition where
  | declared
  | deleted
  | defaulted
  | body
  deriving DecidableEq, Repr

/-- The kind of a member declaration. -/
inductive MemberKind where
  | constructor
  | method
  | conversion
  | friend_
  | using_
  deriving DecidableEq, Repr

/-- The `enable_if` conditions used in the source. -/
inductive Constraint where
  | is_integral
  | is_floating_point
  | is_pointer_not_string
  | type_sequence
  | value_sequence
  deriving DecidableEq, Repr

/-- The comment that heads a group of declarations in the source. -/
inductive Group where
  | non_copyable
  | constant_constructors
  | constant_creators
  | accessors
  | function_call
  | conversion_to_boolean
  | operators
  | access_to_llvm
  | copy_move
  | load
  | address_of
  | init
  | store
  | inherited_constructors
  | builder
  | compound_type_creators
  | c_style_cast
  | from_host_type_creator
  deriving DecidableEq, Repr

/-- One member declaration of a class. -/
structure Member where
  access : Access
  group : Group
  kind : MemberKind
  name : String
  params : List CppType
  ret : Option CppType
  isConst : Bool
  isExplicit : Bool
  constraint : Option Constraint
  defn : Definition
  deriving DecidableEq, Repr

/-- A constructor declaration. -/
def ctor (a : Access) (g : Group) (cls : String) (params : List CppType)
    (c : Option Constraint) (d : Definition) : Member :=
  ⟨a, g, .constructor, cls, params, none, false, false, c, d⟩

/-- A member-function declaration that is not `const`-qualified. -/
def method (a : Access) (g : Group) (name : String) (params : List CppType)
    (ret : CppType) : Member :=
  ⟨a, g, .method, name, params, some ret, false, false, none, .declared⟩

/-- A `const`-qualified member-function declaration. -/
def constMethod (a : Access) (g : Group) (name : String) (params : List CppType)
    (ret : CppType) : Member :=
  ⟨a, g, .method, name, params, some ret, true, false, none, .declared⟩

/-- An `explicit operator T() const` declaration. -/
def explicitConversion (a : Access) (g : Group) (target : CppType) : Member :=
  ⟨a, g, .conversion, "operator", [], some target, true, true, none, .declared⟩

/-- A base-class specifier; `class` heads derive privately by default. -/
structure Base where
  access : Access
  name : String
  /-- For a Boost operator template `tmpl<T, B>`, the class `B` it derives from. -/
  chainsTo : Option String
  deriving DecidableEq, Repr

/-- A class or struct definition: its bases and its member declarations. -/
structure ClassDecl where
  name : String
  self : CppType
  bases : List Base
  members : List Member
  deriving Repr

/-! ## `details.hpp`: nested initializer lists -/

/-- The macro `BOOST_LLVM_INIT_LIST_1D(T)`. -/
def BOOST_LLVM_INIT_LIST_1D (T : CppType) : CppType := .initializer_list T
/-- The macro `BOOST_LLVM_INIT_LIST_2D(T)`. -/
def BOOST_LLVM_INIT_LIST_2D (T : CppType) : CppType :=
  .initializer_list (BOOST_LLVM_INIT_LIST_1D T)
/-- The macro `BOOST_LLVM_INIT_LIST_3D(T)`. -/
def BOOST_LLVM_INIT_LIST_3D (T : CppType) : CppType :=
  .initializer_list (BOOST_LLVM_INIT_LIST_2D T)
/-- The macro `BOOST_LLVM_INIT_LIST_4D(T)`. -/
def BOOST_LLVM_INIT_LIST_4D (T : CppType) : CppType :=
  .initializer_list (BOOST_LLVM_INIT_LIST_3D T)
/-- The macro `BOOST_LLVM_INIT_LIST_5D(T)`. -/
def BOOST_LLVM_INIT_LIST_5D (T : CppType) : CppType :=
  .initializer_list (BOOST_LLVM_INIT_LIST_4D T)
/-- The macro `BOOST_LLVM_INIT_LIST_6D(T)`. -/
def BOOST_LLVM_INIT_LIST_6D (T : CppType) : CppType :=
  .initializer_list (BOOST_LLVM_INIT_LIST_5D T)
/-- The macro `BOOST_LLVM_INIT_LIST_7D(T)`. -/
def BOOST_LLVM_INIT_LIST_7D (T : CppType) : CppType :=
  .initializer_list (BOOST_LLVM_INIT_LIST_6D T)
/-- The macro `BOOST_LLVM_INIT_LIST_8D(T)`. -/
def BOOST_LLVM_INIT_LIST_8D (T : CppType) : CppType :=
  .initializer_list (BOOST_LLVM_INIT_LIST_7D T)
/-- The macro `BOOST_LLVM_INIT_LIST_9D(T)`. -/
def BOOST_LLVM_INIT_LIST_9D (T : CppType) : CppType :=
  .initializer_list (BOOST_LLVM_INIT_LIST_8D T)

/-- The macros `BOOST_LLVM_INIT_LIST_kD` that `details.hpp` defines, by `k`;
no macro exists for any other `k`. -/
def BOOST_LLVM_INIT_LIST (k : Nat) (T : CppType) : Option CppType :=
  match k with
  | 1 => some (BOOST_LLVM_INIT_LIST_1D T)
  | 2 => some (BOOST_LLVM_INIT_LIST_2D T)
  | 3 => some (BOOST_LLVM_INIT_LIST_3D T)
  | 4 => some (BOOST_LLVM_INIT_LIST_4D T)
  | 5 => some (BOOST_LLVM_INIT_LIST_5D T)
  | 6 => some (BOOST_LLVM_INIT_LIST_6D T)
  | 7 => some (BOOST_LLVM_INIT_LIST_7D T)
  | 8 => some (BOOST_LLVM_INIT_LIST_8D T)
  | 9 => some (BOOST_LLVM_INIT_LIST_9D T)
  | _ => none

/-- The type `std::initializer_list` wrapped `k` times around `T`. -/
def nestedInitializerList : Nat → CppType → CppType
  | 0, T => T
  | k + 1, T => .initializer_list (nestedInitializerList k T)

/-- The number of `std::initializer_list` layers at the top of a type. -/
def initListDepth : CppType → Nat
  | .initializer_list t => initListDepth t + 1
  | _ => 0

/-! ## `class value` (boost_llvm.cpp, lines 120-179) -/

/-- The template parameter `T` of the member templates. -/
def T : CppType := .tparam "T"

/-- The declaration of `class value`. -/
def value_class : ClassDecl where
  name := "value"
  self := .value
  bases :=
    [ ⟨.priv, "boost::ordered_euclidian_ring_operators<value>", none⟩
    , ⟨.priv, "boost::bitwise<value>", none⟩
    , ⟨.priv, "boost::shiftable<value>", none⟩ ]
  members :=
    [ -- Non-copyable
      ctor .pub .non_copyable "value" [] none .deleted
    , ctor .pub .non_copyable "value" [.const_lref .value] none .deleted
    , ⟨.pub, .non_copyable, .method, "operator=", [.const_lref .value],
        some (.lref .value), false, false, none, .deleted⟩
      -- Constant constructors.
    , ctor .pub .constant_constructors "value" [.nullptr_t] none .declared
    , ctor .pub .constant_constructors "value" [T] (some .is_integral) .declared
    , ctor .pub .constant_constructors "value" [T] (some .is_floating_point) .declared
    , ctor .pub .constant_constructors "value" [.string_ref] none .declared
    , ctor .pub .constant_constructors "value" [BOOST_LLVM_INIT_LIST_1D T] none .declared
    , ctor .pub .constant_constructors "value" [BOOST_LLVM_INIT_LIST_2D T] none .declared
    , ctor .pub .constant_constructors "value" [BOOST_LLVM_INIT_LIST_3D T] none .declared
    , ctor .pub .constant_constructors "value" [BOOST_LLVM_INIT_LIST_4D T] none .declared
    , ctor .pub .constant_constructors "value" [BOOST_LLVM_INIT_LIST_5D T] none .declared
    , ctor .pub .constant_constructors "value" [BOOST_LLVM_INIT_LIST_6D T] none .declared
    , ctor .pub .constant_constructors "value" [BOOST_LLVM_INIT_LIST_7D T] none .declared
    , ctor .pub .constant_constructors "value" [BOOST_LLVM_INIT_LIST_8D T] none .declared
    , ctor .pub .constant_constructors "value" [BOOST_LLVM_INIT_LIST_9D T] none .declared
      -- Accessors.
    , constMethod .pub .accessors "operator[]" [.value] .value
    , constMethod .pub .accessors "operator*" [] .ref
    , constMethod .pub .accessors "dot" [.size_t] .value
    , constMethod .pub .accessors "dot" [.string_ref] .value
    , constMethod .pub .accessors "arrow" [.size_t] .value
    , constMethod .pub .accessors "arrow" [.string_ref] .value
      -- Function call.
    , ⟨.pub, .function_call, .method, "operator()", [.pack "Args"], some .value,
        true, false, some .value_sequence, .declared⟩
      -- Conversion to Boolean.
    , ⟨.pub, .conversion_to_boolean, .friend_, "test", [.value], some .value,
        false, false, none, .declared⟩
      -- private:
    , method .priv .operators "operator+=" [.value] .value
    , method .priv .operators "operator-=" [.value] .value
    , method .priv .operators "operator*=" [.value] .value
    , method .priv .operators "operator/=" [.value] .value
    , method .priv .operators "operator%=" [.value] .value
    , method .priv .operators "operator&=" [.value] .value
    , method .priv .operators "operator|=" [.value] .value
    , method .priv .operators "operator^=" [.value] .value
    , method .priv .operators "operator<<=" [.value] .value
    , method .priv .operators "operator>>=" [.value] .value
      -- Access to LLVM.
    , constMethod .priv .access_to_llvm "ptr" [] .llvm_Value_ptr
    , explicitConversion .priv .access_to_llvm .llvm_Value_ptr ]

/-! ## References (boost_llvm.cpp, lines 192-256) -/

/-- The declaration of `class const_ref`. -/
def const_ref_class : ClassDecl where
  name := "const_ref"
  self := .const_ref
  bases := []
  members :=
    [ ctor .priv .copy_move "const_ref" [] none .body
      -- public:
    , ctor .pub .copy_move "const_ref" [.const_lref .const_ref] none .defaulted
    , ⟨.pub, .copy_move, .method, "operator=", [.const_lref .const_ref],
        some (.lref .const_ref), false, false, none, .deleted⟩
    , ctor .pub .copy_move "const_ref" [.rref .const_ref] none .defaulted
      -- Load.
    , explicitConversion .pub .load .value
      -- Address of.
    , constMethod .pub .address_of "operator&" [] .value
      -- Accessors.
    , constMethod .pub .accessors "operator[]" [.value] .const_ref
    , constMethod .pub .accessors "operator*" [] .const_ref
    , constMethod .pub .accessors "dot" [.size_t] .const_ref
    , constMethod .pub .accessors "dot" [.string_ref] .const_ref
    , constMethod .pub .accessors "arrow" [.size_t] .const_ref
    , constMethod .pub .accessors "arrow" [.string_ref] .const_ref
      -- Initialize.
    , constMethod .pub .init "operator=" [.initializer] (.lref .const_ref) ]

/-- The declaration of `class ref`. -/
def ref_class : ClassDecl where
  name := "ref"
  self := .ref
  bases := [ ⟨.priv, "boost::incrementable<ref, const_ref>", some "const_ref"⟩ ]
  members :=
    [ ⟨.priv, .inherited_constructors, .using_, "const_ref::const_ref", [], none,
        false, false, none, .declared⟩
      -- public:
      -- Store.
    , constMethod .pub .store "operator=" [.value] (.lref .ref)
      -- Accessors.
    , constMethod .pub .accessors "operator[]" [.value] .ref
    , constMethod .pub .accessors "operator*" [] .ref
    , constMethod .pub .accessors "dot" [.size_t] .ref
    , constMethod .pub .accessors "dot" [.string_ref] .ref
    , constMethod .pub .accessors "arrow" [.size_t] .ref
    , constMethod .pub .accessors "arrow" [.string_ref] .ref
      -- Operators.
    , constMethod .pub .operators "operator+=" [.value] (.lref .ref)
    , constMethod .pub .operators "operator-=" [.value] (.lref .ref)
    , constMethod .pub .operators "operator*=" [.value] (.lref .ref)
    , constMethod .pub .operators "operator/=" [.value] (.lref .ref)
    , constMethod .pub .operators "operator%=" [.value] (.lref .ref)
    , constMethod .pub .operators "operator&=" [.value] (.lref .ref)
    , constMethod .pub .operators "operator|=" [.value] (.lref .ref)
    , constMethod .pub .operators "operator^=" [.value] (.lref .ref)
    , constMethod .pub .operators "operator<<=" [.value] (.lref .ref)
    , constMethod .pub .operators "operator>>=" [.value] (.lref .ref)
    , constMethod .pub .operators "operator++" [] (.lref .ref)
    , constMethod .pub .operators "operator--" [] (.lref .ref)
      -- Initialize.
    , constMethod .pub .init "operator=" [.initializer] (.lref .ref) ]

/-! ## Reading a class definition -/

/-- The members of a class with a given name, whatever their parameters. -/
def ClassDecl.named (c : ClassDecl) (name : String) : List Member :=
  c.members.filter (fun m => m.name == name && m.kind != .conversion)

/-- The member functions with a given name and parameter list. -/
def ClassDecl.overload (c : ClassDecl) (name : String) (params : List CppType) :
    List Member :=
  (c.named name).filter (fun m => m.params == params)

/-- The declared return types of the overload `name(params)` of a class. -/
def ClassDecl.returns (c : ClassDecl) (name : String) (params : List CppType) :
    List (Option CppType) :=
  (c.overload name params).map (fun m => m.ret)

/-- The initializer-list parameters of the single-parameter declarations among
`ms`, in source order. -/
def initListParams (ms : List Member) : List CppType :=
  ms.filterMap (fun m =>
    match m.params with
    | [.initializer_list t] => some (.initializer_list t)
    | _ => none)

/-- The constructors a class declares. -/
def ClassDecl.constructors (c : ClassDecl) : List Member :=
  c.members.filter (fun m => m.kind == .constructor)

/-- The conversion functions of a class. -/
def ClassDecl.conversions (c : ClassDecl) : List Member :=
  c.members.filter (fun m => m.kind == .conversion)

/-- The accessors of a class, the members under the comment "Accessors.": their
names and parameter lists, in source order. -/
def ClassDecl.accessors (c : ClassDecl) : List (String × List CppType) :=
  (c.members.filter (fun m => m.group == .accessors)).map (fun m => (m.name, m.params))

/-- The ten compound-assignment operator names. -/
def compoundAssignmentOperators : List String :=
  [ "operator+=", "operator-=", "operator*=", "operator/=", "operator%="
  , "operator&=", "operator|=", "operator^=", "operator<<=", "operator>>=" ]

/-- Whether a name is that of a compound-assignment operator: `operator`
followed by `=` preceded by one of the binary operator tokens. -/
def isCompoundAssignment (name : String) : Bool :=
  [ "+", "-", "*", "/", "%", "&", "|", "^", "<<", ">>" ].any
    (fun op => name == "operator" ++ op ++ "=")

/-- The compound-assignment operators a class declares, in source order. -/
def ClassDecl.compoundAssignments (c : ClassDecl) : List Member :=
  c.members.filter (fun m => isCompoundAssignment m.name)

/-! ## Constant creators of `class type` (boost_llvm.cpp, lines 51-53 and 82-109) -/

/-- Every `operator()` that `class type` declares, in source order: the
function-type creator, the constant creators and the C-style cast. -/
def type_call_operators : List Member :=
  [ -- function
    ⟨.pub, .compound_type_creators, .method, "operator()", [.pack "Types"], some .type,
      true, false, some .type_sequence, .declared⟩
    -- Constant creators.
  , method .pub .constant_creators "operator()" [.nullptr_t] .value
  , ⟨.pub, .constant_creators, .method, "operator()", [T], some .value,
      false, false, some .is_pointer_not_string, .declared⟩
  , ⟨.pub, .constant_creators, .method, "operator()", [T], some .value,
      false, false, some .is_integral, .declared⟩
  , ⟨.pub, .constant_creators, .method, "operator()", [T], some .value,
      false, false, some .is_floating_point, .declared⟩
  , method .pub .constant_creators "operator()" [.string_ref] .value
  , method .pub .constant_creators "operator()" [.const_lref (.std_tuple "Ts")] .value
  , method .pub .constant_creators "operator()" [.const_lref (.array_ref .value)] .value
  , method .pub .constant_creators "operator()" [BOOST_LLVM_INIT_LIST_1D T] .value
  , method .pub .constant_creators "operator()" [BOOST_LLVM_INIT_LIST_2D T] .value
  , method .pub .constant_creators "operator()" [BOOST_LLVM_INIT_LIST_3D T] .value
  , method .pub .constant_creators "operator()" [BOOST_LLVM_INIT_LIST_4D T] .value
  , method .pub .constant_creators "operator()" [BOOST_LLVM_INIT_LIST_5D T] .value
  , method .pub .constant_creators "operator()" [BOOST_LLVM_INIT_LIST_6D T] .value
  , method .pub .constant_creators "operator()" [BOOST_LLVM_INIT_LIST_7D T] .value
  , method .pub .constant_creators "operator()" [BOOST_LLVM_INIT_LIST_8D T] .value
  , method .pub .constant_creators "operator()" [BOOST_LLVM_INIT_LIST_9D T] .value
    -- C-style cast
  , method .pub .c_style_cast "operator()" [.value] .value ]

/-- The nesting depths of the initializer-list overloads among some
single-parameter declarations, in source order. -/
def initListDepths (ms : List Member) : List Nat :=
  ms.filterMap (fun m =>
    match m.params with
    | [.initializer_list t] => some (initListDepth t + 1)
    | _ => none)

/-! ## Control flow (boost_llvm.cpp, lines 340-373) -/

/-- A namespace-scope function declaration. -/
structure Function where
  name : String
  params : List CppType
  ret : CppType
  deriving DecidableEq, Repr

/-- The declaration of `struct switch_`; a `struct` makes its members public. -/
def switch_struct : ClassDecl where
  name := "switch_"
  self := .switch_
  bases := []
  members :=
    [ ctor .pub .builder "switch_" [.value] none .declared
    , method .pub .builder "case_" [.int64_t, .label] (.lref .switch_)
    , method .pub .builder "default_" [.label] (.rref .switch_)
    , explicitConversion .pub .builder .value ]

/-- One declaration of the control-flow section that generates a branch. -/
inductive ControlFlowDecl where
  | function (f : Function)
  | builder (c : ClassDecl)

/-- The control-flow constructs, in source order (the alias `loop_test` and the
argument type `code` that precede them are not constructs). -/
def control_flow : List ControlFlowDecl :=
  [ .function ⟨"if_", [.value, .code, .code], .value⟩
  , .function ⟨"do_", [.code, .loop_test], .value⟩
  , .function ⟨"while_", [.loop_test, .code], .value⟩
  , .function ⟨"for_", [.code, .loop_test, .code, .code], .value⟩
  , .function ⟨"goto_", [.label], .value⟩
  , .function ⟨"goto_", [.value, .array_ref .label], .value⟩
  , .builder switch_struct
  , .function ⟨"break_", [], .value⟩
  , .function ⟨"continue_", [], .value⟩
  , .function ⟨"return_", [], .value⟩
  , .function ⟨"return_", [.value], .value⟩ ]

/-- The name of a control-flow construct. -/
def ControlFlowDecl.name : ControlFlowDecl → String
  | .function f => f.name
  | .builder c => c.name

/-- The types in which a control-flow construct hands back the instruction it
inserted: the return type of a function, the targets of the conversion
functions of a builder. -/
def ControlFlowDecl.results : ControlFlowDecl → List (Option CppType)
  | .function f => [some f.ret]
  | .builder c => c.conversions.map (fun m => m.ret)

/-! ## Selecting the function of an initialisation or assignment

The part of overload resolution that decides whether `C w(e)` and `w = e`
compile, for an argument `e` that is not a braced list. -/

/-- The declaration of `struct initializer` (boost_llvm.cpp, line 196). -/
def initializer_struct : ClassDecl where
  name := "initializer"
  self := .initializer
  bases := []
  members :=
    [ ⟨.pub, .init, .constructor, "initializer", [.value], none,
        false, true, none, .declared⟩ ]

/-- The classes and structs of the file that overload resolution consults. -/
def classes : List ClassDecl :=
  [value_class, initializer_struct, const_ref_class, ref_class, switch_struct]

/-- Member lookup by name: a name declared in the class hides the same name in
its bases; otherwise the lookup continues in the class each base chains to. -/
def lookup (env : List ClassDecl) : Nat → String → String → List Member
  | 0, _, _ => []
  | fuel + 1, cls, name =>
    match env.find? (fun c => c.name == cls) with
    | none => []
    | some c =>
      match c.named name with
      | [] => (c.bases.filterMap (fun b => b.chainsTo)).flatMap
                (fun b => lookup env fuel b name)
      | ms => ms

/-- An argument expression: its type, which is not an initializer list, whether
it is an lvalue, and whether it is const-qualified. -/
structure Expr where
  ty : CppType
  isLvalue : Bool
  isConst : Bool
  deriving DecidableEq, Repr

/-- Why an initialisation or assignment does not compile. -/
inductive Rejection where
  | deleted_function
  | inaccessible
  | no_viable_function
  | ambiguous
  deriving DecidableEq, Repr

deriving instance DecidableEq for Except

/-- Whether a single template argument satisfies an `enable_if` condition of the
source.  Of the types in signatures only `size_t` and `int64_t` are integral,
none is a floating-point type, and the pointers are the two LLVM pointers,
neither convertible to `string_ref`.  The two sequence conditions constrain
parameter packs, never a single template parameter. -/
def Constraint.holds : Constraint → CppType → Bool
  | .is_integral, t => t == .size_t || t == .int64_t
  | .is_floating_point, _ => false
  | .is_pointer_not_string, t => t == .llvm_Value_ptr || t == .llvm_Type_ptr
  | .type_sequence, _ => false
  | .value_sequence, _ => false

/-- The definition of the class a type names, if it is one of `env`. -/
def classOf (env : List ClassDecl) (t : CppType) : Option ClassDecl :=
  env.find? (fun c => c.self == t)

/-- Whether the parameter `p` of a constructor takes `e` without a conversion. -/
def takesDirectly (p : CppType) (k : Option Constraint) (e : Expr) : Bool :=
  match p with
  | .const_lref t => t == e.ty
  | .lref t => t == e.ty && e.isLvalue && !e.isConst
  | .rref t => t == e.ty && !e.isLvalue && !e.isConst
  | .tparam _ => match k with
    | some cond => cond.holds e.ty
    | none => true
  | .initializer_list _ => false
  | t => t == e.ty

/-- Whether `e` converts implicitly to the type `t`: it has that type, or its
class has a conversion function to `t` that is not `explicit`, or the class
`t` has a constructor that is not `explicit` and takes `e`. -/
def converts (env : List ClassDecl) (e : Expr) (t : CppType) : Bool :=
  t == e.ty ||
  (match classOf env e.ty with
   | some c => c.conversions.any (fun m => !m.isExplicit && m.ret == some t)
   | none => false) ||
  (match classOf env t with
   | some c => c.constructors.any (fun m => !m.isExplicit &&
       match m.params with
       | [p] => takesDirectly p m.constraint e
       | _ => false)
   | none => false)

/-- Whether an implicit conversion sequence takes the argument `e` to a
parameter of type `p`, under the condition `k`; this is all that viability
asks.  A reference to const and a parameter taken by value admit a conversion;
`T &&` binds an rvalue of its own type or the temporary a conversion makes; no
initializer-list parameter takes an argument that is not a list.  A deleted
copy constructor does not make a candidate taking the class by value less
viable: the copy such a parameter needs is made, and checked, once the
function is selected (`initialiseParameter`). -/
def accepts (env : List ClassDecl) (p : CppType) (k : Option Constraint) (e : Expr) :
    Bool :=
  match p with
  | .const_lref t => converts env e t
  | .lref t => t == e.ty && e.isLvalue && !e.isConst
  | .rref t => (t == e.ty && !e.isLvalue && !e.isConst) || (t != e.ty && converts env e t)
  | .tparam _ => match k with
    | some cond => cond.holds e.ty
    | none => true
  | .initializer_list _ => false
  | t => converts env e t

/-- Whether a candidate taking one argument is viable for `e`. -/
def viable (env : List ClassDecl) (e : Expr) (m : Member) : Bool :=
  match m.params with
  | [p] => accepts env p m.constraint e
  | _ => false

/-- Whether the class declares a function `name` whose only parameter is `p`. -/
def ClassDecl.declares (c : ClassDecl) (kind : MemberKind) (name : String)
    (p : CppType) : Bool :=
  c.members.any (fun m => m.kind == kind && m.name == name && m.params == [p])

/-- Whether the user declared a copy constructor. -/
def ClassDecl.hasCopyCtor (c : ClassDecl) : Bool :=
  c.declares .constructor c.name (.const_lref c.self)
/-- Whether the user declared a copy assignment operator. -/
def ClassDecl.hasCopyAssign (c : ClassDecl) : Bool :=
  c.declares .method "operator=" (.const_lref c.self)
/-- Whether the user declared a move constructor. -/
def ClassDecl.hasMoveCtor (c : ClassDecl) : Bool :=
  c.declares .constructor c.name (.rref c.self)
/-- Whether the user declared a move assignment operator. -/
def ClassDecl.hasMoveAssign (c : ClassDecl) : Bool :=
  c.declares .method "operator=" (.rref c.self)

/-- Whether a class that a base chains to has a deleted function `name` taking
`const B &`, which makes the implicit function of the derived class deleted. -/
def baseDeletes (env : List ClassDecl) (c : ClassDecl) (kind : MemberKind)
    (ctorName : Bool) : Bool :=
  (c.bases.filterMap (fun b => b.chainsTo)).any (fun bn =>
    match env.find? (fun b => b.name == bn) with
    | some b => b.members.any (fun m =>
        m.kind == kind && m.name == (if ctorName then b.name else "operator=") &&
        m.params == [.const_lref b.self] && m.defn == .deleted)
    | none => false)

/-- The copy and move functions the compiler declares by itself: a copy
function when the user declared none of that kind, deleted when a base has it
deleted; a move function when the user declared no copy or move function at
all and no base has the copy function deleted (none of the classes here
declares a destructor). -/
def ClassDecl.implicitMembers (env : List ClassDecl) (c : ClassDecl) : List Member :=
  let noneDeclared :=
    !c.hasCopyCtor && !c.hasCopyAssign && !c.hasMoveCtor && !c.hasMoveAssign
  let ctorDeleted := baseDeletes env c .constructor true
  let assignDeleted := baseDeletes env c .method false
  (if c.hasCopyCtor then [] else
    [ctor .pub .copy_move c.name [.const_lref c.self] none
      (if ctorDeleted then .deleted else .defaulted)]) ++
  (if c.hasCopyAssign then [] else
    [⟨.pub, .copy_move, .method, "operator=", [.const_lref c.self],
      some (.lref c.self), false, false, none,
      if assignDeleted then .deleted else .defaulted⟩]) ++
  (if noneDeclared && !ctorDeleted then
    [ctor .pub .copy_move c.name [.rref c.self] none .defaulted] else []) ++
  (if noneDeclared && !assignDeleted then
    [⟨.pub, .copy_move, .method, "operator=", [.rref c.self],
      some (.lref c.self), false, false, none, .defaulted⟩] else [])

/-- How well a viable candidate fits `e`: `0` when `T &` binds a modifiable
lvalue or `T &&` an rvalue of its own type, `1` when the parameter takes `e`
without a conversion, `2` when a user-defined conversion is needed. -/
def rank (e : Expr) (m : Member) : Nat :=
  match m.params with
  | [.lref t] => if t == e.ty then 0 else 2
  | [.rref t] => if t == e.ty then 0 else 2
  | [p] => if takesDirectly p m.constraint e then 1 else 2
  | _ => 2

/-- The best viable candidates for `e`: the viable candidates of the lowest
rank that any of them has. -/
def bestViable (env : List ClassDecl) (e : Expr) (candidates : List Member) :
    List Member :=
  let vs := candidates.filter (viable env e)
  match vs.filter (fun m => rank e m == 0), vs.filter (fun m => rank e m == 1) with
  | [], [] => vs
  | [], exact => exact
  | direct, _ => direct

/-- The check made on the function overload resolution selected: the call is
rejected when that function is deleted, or private and named from outside. -/
def usable (m : Member) : Except Rejection Member :=
  if m.defn == .deleted then .error .deleted_function
  else if m.access == .priv then .error .inaccessible
  else .ok m

/-- Overload resolution proper: the single best viable candidate is selected
and then checked; its parameter is not yet initialised. -/
def resolve (env : List ClassDecl) (e : Expr) (candidates : List Member) :
    Except Rejection Member :=
  match bestViable env e candidates with
  | [] => .error .no_viable_function
  | [m] => usable m
  | _ => .error .ambiguous

/-- The type of the object a parameter declares when it is taken by value: a
reference declares none, a template parameter `T` is deduced as the type of
the argument. -/
def byValueType (p : CppType) (e : Expr) : Option CppType :=
  match p with
  | .const_lref _ => none
  | .lref _ => none
  | .rref _ => none
  | .initializer_list _ => none
  | .tparam _ => some e.ty
  | t => some t

/-- The copy-initialisation of the parameter of the selected function `m` from
the argument `e`.  A parameter of class type taken by value is a new object:
it is constructed from `e` when `e` has that type, and otherwise from the
temporary the conversion makes, in both cases by the copy or move constructor
that overload resolution selects, which has to be usable.  These are the rules
of C++11 and C++14, the dialect of the source; they ask for the constructor
also where the copy may be elided. -/
def initialiseParameter (env : List ClassDecl) (e : Expr) (m : Member) :
    Except Rejection Member :=
  match m.params with
  | [p] =>
    match byValueType p e with
    | none => .ok m
    | some t =>
      match classOf env t with
      | none => .ok m
      | some c =>
        match resolve env (if t == e.ty then e else ⟨t, false, false⟩)
            ((c.members ++ c.implicitMembers env).filter
              (fun k => k.kind == .constructor)) with
        | .ok _ => .ok m
        | .error r => .error r
  | _ => .ok m

/-- The outcome of a call once its candidates are known: the function is
selected and checked, and its parameter is then initialised from the
argument. -/
def select (env : List ClassDecl) (e : Expr) (candidates : List Member) :
    Except Rejection Member :=
  match resolve env e candidates with
  | .ok m => initialiseParameter env e m
  | .error r => .error r

/-- The initialisation `C w(e)` or `C w = e`, from outside the class. -/
def construct (env : List ClassDecl) (c : ClassDecl) (e : Expr) :
    Except Rejection Member :=
  select env e ((c.members ++ c.implicitMembers env).filter
    (fun m => m.kind == .constructor))

/-- The assignment `w = e` to an object `w` of class `c`, from outside the
class. -/
def assign (env : List ClassDecl) (c : ClassDecl) (e : Expr) :
    Except Rejection Member :=
  select env e ((c.members ++ c.implicitMembers env).filter
    (fun m => m.kind == .method && m.name == "operator="))

/-- The default initialisation `C w;`, from outside the class. -/
def defaultConstruct (c : ClassDecl) : Except Rejection Member :=
  match c.constructors.filter (fun m => m.params == []) with
  | [m] => usable m
  | _ => .error .no_viable_function

/-! ## Host types and `type::get` (boost_llvm.cpp, lines 55-79) -/

/-- The cv-qualifiers at the top of a type. -/
structure CV where
  isConst : Bool
  isVolatile : Bool
  deriving DecidableEq, Repr

/-- No qualifier. -/
def CV.none : CV := ⟨false, false⟩

/-- A host object type.  An array has no qualifiers of its own: qualifying an
array qualifies its elements.  `void` and function types are left out, since
no reference to `void` can be formed. -/
inductive ObjectType where
  /-- A fundamental or class type other than a tuple, by name. -/
  | named (cv : CV) (name : String)
  | pointer (cv : CV) (pointee : ObjectType)
  /-- The type `std::tuple<Ts...>`. -/
  | tuple (cv : CV) (members : List ObjectType)
  /-- The type `T[N]`. -/
  | array (elem : ObjectType) (extent : Nat)
  /-- The type `T[]`. -/
  | unsized (elem : ObjectType)
  deriving Repr

/-- A host type: an object type or a reference to one. -/
inductive HostType where
  | object (t : ObjectType)
  | lref (t : ObjectType)
  | rref (t : ObjectType)
  deriving Repr

/-- The type `const T` for an object type `T`. -/
def ObjectType.addConst : ObjectType → ObjectType
  | .named cv n => .named ⟨true, cv.isVolatile⟩ n
  | .pointer cv p => .pointer ⟨true, cv.isVolatile⟩ p
  | .tuple cv ms => .tuple ⟨true, cv.isVolatile⟩ ms
  | .array e n => .array e.addConst n
  | .unsized e => .unsized e.addConst

/-- The type `volatile T` for an object type `T`. -/
def ObjectType.addVolatile : ObjectType → ObjectType
  | .named cv n => .named ⟨cv.isConst, true⟩ n
  | .pointer cv p => .pointer ⟨cv.isConst, true⟩ p
  | .tuple cv ms => .tuple ⟨cv.isConst, true⟩ ms
  | .array e n => .array e.addVolatile n
  | .unsized e => .unsized e.addVolatile

/-- The type without its top-level qualifiers. -/
def ObjectType.removeCV : ObjectType → ObjectType
  | .named _ n => .named CV.none n
  | .pointer _ p => .pointer CV.none p
  | .tuple _ ms => .tuple CV.none ms
  | .array e n => .array e.removeCV n
  | .unsized e => .unsized e.removeCV

/-- The type `const T`, where `T` is a template argument: a qualifier applied to
a reference type is ignored. -/
def HostType.addConst : HostType → HostType
  | .object t => .object t.addConst
  | t => t

/-- The type `volatile T`, where `T` is a template argument. -/
def HostType.addVolatile : HostType → HostType
  | .object t => .object t.addVolatile
  | t => t

/-- The type `T &`, where `T` is a template argument: references collapse. -/
def HostType.addLref : HostType → HostType
  | .object t => .lref t
  | .lref t => .lref t
  | .rref t => .lref t

/-- The type `T &&`, where `T` is a template argument: references collapse. -/
def HostType.addRref : HostType → HostType
  | .object t => .rref t
  | .lref t => .lref t
  | .rref t => .rref t

/-- The trait `std::remove_reference<T>::type`. -/
def remove_reference : HostType → HostType
  | .object t => .object t
  | .lref t => .object t
  | .rref t => .object t

/-- The trait `std::remove_cv<T>::type`; a reference type has no qualifiers. -/
def remove_cv : HostType → HostType
  | .object t => .object t.removeCV
  | t => t

/-- The primary template and the partial specialisations of `type::get_impl`,
named by the comments of the source. -/
inductive Mapping where
  | scalar
  | pointer
  | aggregate
  | array
  | unsized_array
  deriving DecidableEq, Repr

/-- The specialisation of `get_impl` that a template argument selects: `T*`
and `std::tuple<Ts...>` match unqualified types only, `T[N]` and `T[]` match
every array, the primary template takes the rest. -/
def get_impl_select : HostType → Mapping
  | .object (.pointer ⟨false, false⟩ _) => .pointer
  | .object (.tuple ⟨false, false⟩ _) => .aggregate
  | .object (.array _ _) => .array
  | .object (.unsized _) => .unsized_array
  | _ => .scalar

/-- The class `get_impl<V>`: its template argument and the specialisation the
argument selects. -/
structure GetImpl where
  arg : HostType
  mapping : Mapping
  deriving Repr

/-- The instantiation `get_impl<V>`. -/
def get_impl (V : HostType) : GetImpl := ⟨V, get_impl_select V⟩

/-- The members the primary template and each partial specialisation of
`get_impl` declare (lines 64-79): every one an `explicit operator type()
const`, and the aggregate two constructors besides, whose `string_refs`
parameter has a default argument.  The members of a `struct` are public. -/
def get_impl_members : Mapping → List Member
  | .aggregate =>
    [ ctor .pub .from_host_type_creator "get_impl" [.const_lref .string_refs] none .declared
    , ctor .pub .from_host_type_creator "get_impl" [.string_ref, .const_lref .string_refs]
        none .declared
    , explicitConversion .pub .from_host_type_creator .type ]
  | _ => [ explicitConversion .pub .from_host_type_creator .type ]

/-- The constructors `class type` declares (lines 24-114): none. -/
def type_constructors : List Member := []

/-- The statement `return get_impl<V>();` in a function that returns `type`.
The result is copy-initialised from the `get_impl` object, which takes an
implicit conversion: a conversion function of `get_impl<V>` to `type` that is
not `explicit`, or a constructor of `type` that is not `explicit` and takes
one argument.  The statement is ill-formed when there is none. -/
def return_as_type (g : GetImpl) : Except Rejection GetImpl :=
  match (get_impl_members g.mapping).filter
      (fun m => m.kind == .conversion && !m.isExplicit && m.ret == some .type) ++
    type_constructors.filter (fun m => !m.isExplicit && m.params.length == 1) with
  | [] => .error .no_viable_function
  | [m] =>
    match usable m with
    | .ok _ => .ok g
    | .error r => .error r
  | _ => .error .ambiguous

/-- The function template `type::get<T>`: its two alias declarations and its
return statement.  The result is the `get_impl` object that is converted to
the `type` returned, or the reason why the instantiation is ill-formed. -/
def get (T : HostType) : Except Rejection GetImpl :=
  let U := remove_reference T
  let V := remove_cv U
  return_as_type (get_impl V)

/-- The normalisation `get` applies to its template argument. -/
def normalise (T : HostType) : HostType := remove_cv (remove_reference T)

/-! ## Emitted instructions

The bodies of the operations below are not in the source; what they emit is
taken from the specification (sections 3, 4.D and 4.G). -/

/-- Modelled from the spec: the SSA-value pointer of the IR library, which is
either a constant or the result of an emitted instruction. -/
inductive SSA where
  | constant (bits : Int)
  | result (id : Nat)
  deriving DecidableEq, Repr

/-- Modelled from the spec: the instructions of the IR library that the
operations considered here emit.  A `switch` names basic blocks by number. -/
inductive Instr where
  | load (id : Nat) (address : SSA)
  | store (stored : SSA) (address : SSA)
  | switch (id : Nat) (scrutinee : SSA) (cases : List (Int × Nat)) (default : Option Nat)
  deriving DecidableEq, Repr

/-- Modelled from the spec: the insertion context, reduced to the instructions
appended so far to the current block and the number of the next result. -/
structure Context where
  block : List Instr
  next : Nat
  deriving DecidableEq, Repr

/-- Modelled from the spec: the categories of IR type a reference can point
to. -/
inductive IRType where
  | int_ (bits : Nat)
  | float_ (bits : Nat)
  | pointer (pointee : IRType)
  | array (elem : IRType) (size : Nat)
  deriving DecidableEq, Repr

/-- Modelled from the spec: the data of `class value`, a handle wrapping an
SSA-value pointer. -/
structure value where
  ptr : SSA
  deriving DecidableEq, Repr

/-- Modelled from the spec: the data of `class const_ref`, an SSA pointer value
plus its pointee type. -/
structure const_ref where
  ptr : SSA
  pointee : IRType
  deriving DecidableEq, Repr

/-- Modelled from the spec: the data of `class ref`, which derives from
`const_ref` through `boost::incrementable<ref, const_ref>`. -/
structure ref extends const_ref
  deriving DecidableEq, Repr

/-- Modelled from the spec: the body of `const_ref::operator value`, absent
from the source.  Converting a reference to a `value` emits a load; the
`value` returned is the result of that load. -/
def const_ref.load (r : const_ref) (ctx : Context) : value × Context :=
  (⟨.result ctx.next⟩, ⟨ctx.block ++ [.load ctx.next r.ptr], ctx.next + 1⟩)

/-- Modelled from the spec: the body of `ref::operator=(value)`, absent from the
source.  Assigning a `value` to a `ref` emits a store; the operator returns
the reference. -/
def ref.store (r : ref) (v : value) (ctx : Context) : ref × Context :=
  (r, ⟨ctx.block ++ [.store v.ptr r.ptr], ctx.next⟩)

/-- Modelled from the spec: the state in which the IR library runs a block, the
results computed so far and the memory, both over integers. -/
structure Machine where
  results : Nat → Option Int
  memory : Int → Option Int

/-- Modelled from the spec: the run-time value of an SSA value. -/
def Machine.eval (m : Machine) : SSA → Option Int
  | .constant bits => some bits
  | .result id => m.results id

/-- Modelled from the spec: the effect of one instruction of the IR library.  A
load reads the addressed cell into its result, a store writes the addressed
cell, a switch changes neither results nor memory. -/
def Machine.exec (m : Machine) : Instr → Option Machine
  | .load id address =>
    match m.eval address with
    | none => none
    | some a =>
      match m.memory a with
      | none => none
      | some x => some ⟨fun i => if i = id then some x else m.results i, m.memory⟩
  | .store stored address =>
    match m.eval stored, m.eval address with
    | some x, some a => some ⟨m.results, fun b => if b = a then some x else m.memory b⟩
    | _, _ => none
  | .switch _ _ _ _ => some m

/-- Modelled from the spec: running the instructions of a block in order. -/
def Machine.run (m : Machine) : List Instr → Option Machine
  | [] => some m
  | i :: rest =>
    match m.exec i with
    | none => none
    | some m1 => m1.run rest

/-- Modelled from the spec: the instruction kinds of section 4.D. -/
inductive Opcode where
  | load
  | store
  | getelementptr
  | binary
  deriving DecidableEq, Repr

/-- Modelled from the spec: what each group of reference operations emits, their
bodies being absent from the source.  Conversion to `value` emits a load;
`operator&` returns the pointer and emits nothing; the accessors go through
GEP without a load; `operator=(initializer)` performs an in-place store;
`operator=(value)` emits a store; compound assignment, increment and
decrement emit load, operation, store. -/
def emits : Group → List Opcode
  | .load => [.load]
  | .address_of => []
  | .accessors => [.getelementptr]
  | .init => [.store]
  | .store => [.store]
  | .operators => [.load, .binary, .store]
  | _ => []

/-- Whether a member of a reference class writes the referenced memory. -/
def writesMemory (m : Member) : Bool :=
  m.defn != .deleted && (emits m.group).contains .store

/-- The names and parameters of the public members of a class that write the
referenced memory. -/
def ClassDecl.publicWriters (c : ClassDecl) : List (String × List CppType) :=
  (c.members.filter (fun m => m.access == .pub && writesMemory m)).map
    (fun m => (m.name, m.params))

/-! ## The `switch_` builder -/

/-- Modelled from the spec: a label, the handle of a basic block. -/
structure label where
  block : Nat
  deriving DecidableEq, Repr

/-- The error kinds of section 7 of the specification that the operations
modelled here can raise. -/
inductive Error where
  | DuplicateName
  | DuplicateCase
  deriving DecidableEq, Repr

/-- Modelled from the spec: the data of `struct switch_`, an imperative builder
holding the scrutinee, the cases added so far and the default label. -/
structure switch_ where
  scrutinee : value
  cases : List (Int × label)
  default : Option label
  deriving DecidableEq, Repr

/-- Modelled from the spec: the constructor `switch_(value)`. -/
def switch_.new (v : value) : switch_ := ⟨v, [], none⟩

/-- Modelled from the spec: the body of `switch_::case_`, absent from the
source; it adds an integer case, and a duplicate key is `DuplicateCase`.  The
check of a key against the width of the scrutinee is left out, the spec
naming no error for it. -/
def switch_.case_ (s : switch_) (key : Int) (target : label) : Except Error switch_ :=
  if (s.cases.map (fun c => c.1)).contains key then .error .DuplicateCase
  else .ok ⟨s.scrutinee, s.cases ++ [(key, target)], s.default⟩

/-- Modelled from the spec: the body of `switch_::default_`, absent from the
source; it fixes the fall-through label. -/
def switch_.default_ (s : switch_) (target : label) : switch_ :=
  ⟨s.scrutinee, s.cases, some target⟩

/-- Modelled from the spec: the body of `switch_::operator value`, absent from
the source; the conversion finalizes the builder and emits the `switch`
instruction, which it returns as a `value`. -/
def switch_.toValue (s : switch_) (ctx : Context) : value × Context :=
  (⟨.result ctx.next⟩,
   ⟨ctx.block ++ [.switch ctx.next s.scrutinee.ptr
      (s.cases.map (fun c => (c.1, c.2.block))) (s.default.map (fun l => l.block))],
    ctx.next + 1⟩)

/-! ## Symbol names (boost_llvm.cpp, lines 376-395) -/

/-- The enumeration `symbol_name::Kind`. -/
inductive Kind where
  | RIGID
  | FLEXIBLE
  deriving DecidableEq, Repr

/-- Modelled from the spec: the data of `struct symbol_name`, which the source
declares without members: the kind and the requested name. -/
structure symbol_name where
  kind : Kind
  name : String
  deriving DecidableEq, Repr

/-- The constructor `symbol_name(string_ref)`: "Creates a rigid symbol name.
The specified name will be the symbol name." -/
def symbol_name.rigid (name : String) : symbol_name := ⟨.RIGID, name⟩

/-- The friend `flexible(string_ref)`: "Creates a flexible symbol name.  It may be
renamed to avoid collisions." -/
def flexible (name : String) : symbol_name := ⟨.FLEXIBLE, name⟩

/-- Modelled from the spec: the name with a numeric suffix, as in `f.1`. -/
def suffixed (name : String) (k : Nat) : String := name ++ "." ++ toString k

/-- Modelled from the spec: the search for a numeric suffix that makes the name
unique, starting at `k` and trying `fuel` suffixes. -/
def firstFree (taken : List String) (name : String) : Nat → Nat → Option String
  | 0, _ => none
  | fuel + 1, k =>
    if (suffixed name k) ∈ taken then firstFree taken name fuel (k + 1)
    else some (suffixed name k)

/-- Modelled from the spec: "the newer name is mangled with a numeric suffix
until unique".  One suffix more than there are names taken is enough. -/
def mangle (taken : List String) (name : String) : Option String :=
  firstFree taken name (taken.length + 1) 1

/-- Modelled from the spec: the creation of a symbol in a scope, which is the
part of `extern_`, `static_` and `inline_` that section 4.F describes and whose
code is absent from the source.  The scope is the list of the effective names
it holds.  A free name is taken as requested; a duplicate name is
`DuplicateName` unless the symbol name is flexible, which is then mangled.
The result is the effective name and the scope with it. -/
def create_symbol (scope : List String) (n : symbol_name) :
    Except Error (String × List String) :=
  if n.name ∈ scope then
    match n.kind with
    | .RIGID => .error .DuplicateName
    | .FLEXIBLE =>
      match mangle scope n.name with
      | some fresh => .ok (fresh, fresh :: scope)
      | none => .error .DuplicateName
  else .ok (n.name, n.name :: scope)

/-- Modelled from the spec: creating symbols one after the other in one scope;
the first failure ends the sequence. -/
def create_symbols (scope : List String) :
    List symbol_name → Except Error (List String × List String)
  | [] => .ok ([], scope)
  | n :: rest =>
    match create_symbol scope n with
    | .error e => .error e
    | .ok (name, scope1) =>
      match create_symbols scope1 rest with
      | .error e => .error e
      | .ok (names, scope2) => .ok (name :: names, scope2)

/-! ## `string_refs` (details.hpp, lines 11-42)

A `string_ref` is `llvm::StringRef`, kept here as the characters it views.
Storage is named, not copied: a view records what its data pointer designates,
and the elements are read back through it. -/

/-- What the data pointer of a view designates: nothing, a buffer of the caller
(by number), or the member `m_storage` of the `string_refs` that holds the
view. -/
inductive Designation where
  | nothing
  | caller (buffer : Nat)
  | m_storage
  deriving DecidableEq, Repr

/-- Modelled from the spec: `array_ref.hpp` is not among the sources.  The class
`array_ref<string_ref>` is taken as what its name and its use in `details.hpp`
say, a view that owns nothing: a data pointer and a length. -/
structure array_ref where
  data : Designation
  size : Nat
  deriving DecidableEq, Repr

/-- Modelled from the spec: the expression `base_t({})`, the view of no
elements (`array_ref.hpp` is not among the sources). -/
def array_ref.empty : array_ref := ⟨.nothing, 0⟩

/-- Modelled from the spec: the conversion `base_t(v)` of a vector `v` kept
at `place`, the view of all its elements (`array_ref.hpp` is not among the
sources). -/
def array_ref.of_vector (place : Designation) (v : List String) : array_ref :=
  ⟨place, v.length⟩

/-- The struct `string_refs`: its base `array_ref<string_ref>` and its private
member `m_storage`, an `llvm::SmallVector<string_ref, 4>`. -/
structure string_refs where
  base : array_ref
  m_storage : List String
  deriving DecidableEq, Repr

/-- The elements a view shows: those of the buffer it designates, up to its
length.  `memory` holds the buffers of the caller, `own` the `m_storage` of the
object holding the view. -/
def array_ref.read (memory : Nat → List String) (own : List String) (v : array_ref) :
    List String :=
  match v.data with
  | .nothing => []
  | .caller buffer => (memory buffer).take v.size
  | .m_storage => own.take v.size

/-- The sequence a `string_refs` is, read through its base. -/
def string_refs.elements (memory : Nat → List String) (s : string_refs) : List String :=
  s.base.read memory s.m_storage

/-- The constructor `string_refs(base_t const & names)`, whose initialisers are
`base_t(names), m_storage()`. -/
def string_refs.of_base (names : array_ref) : string_refs :=
  ⟨names, []⟩

/-- The constructor template `string_refs(StringSequence const & names)`.  Its
initialisers are `base_t` of an empty list and `m_storage(names.begin(),
names.end())`, which makes a `string_ref` of each element by `convert`; its
body assigns `base_t(m_storage)` to the base. -/
def string_refs.of_sequence {σ : Type} (convert : σ → String) (names : List σ) :
    string_refs :=
  let constructed : string_refs := ⟨array_ref.empty, names.map convert⟩
  ⟨array_ref.of_vector .m_storage constructed.m_storage, constructed.m_storage⟩

/-- The constructor `string_refs()`, which delegates to `string_refs({})`; the
braces are read as the empty `base_t`. -/
def string_refs.default : string_refs :=
  string_refs.of_base array_ref.empty

/-- A sequence of elements from which a `string_ref` can be constructed: an
`array_ref<string_ref>`, the type `base_t` itself, or a sequence of another
type, given by its elements from `begin()` to `end()`. -/
inductive StringSequence (σ : Type) where
  | base (names : array_ref)
  | other (names : List σ)

/-- The elements of the sequence handed in. -/
def StringSequence.elements {σ : Type} (memory : Nat → List String) (convert : σ → String) :
    StringSequence σ → List String
  | .base names => names.read memory []
  | .other names => names.map convert

/-- The number of elements of the sequence handed in. -/
def StringSequence.size {σ : Type} : StringSequence σ → Nat
  | .base names => names.size
  | .other names => names.length

/-- The construction of a `string_refs` from a sequence.  For an argument of
type `base_t` the constructor `string_refs(base_t const &)` and the template
both match exactly and the function that is not a template is selected; any
other sequence goes to the template. -/
def string_refs.build {σ : Type} (convert : σ → String) : StringSequence σ → string_refs
  | .base names => string_refs.of_base names
  | .other names => string_refs.of_sequence convert names

/-! ## `detail::is_typed_sequence` (details.hpp, lines 53-68)

The trait calls `test` on one lvalue per type of the pack and asks whether the
overload selected returns `void`.  Whether an lvalue of a type can initialise
an element of `std::initializer_list<Target>` is a question about `Target`
and the conversion rules; it is a parameter, `initialises`. -/

/-- The argument `*static_cast<T *>(nullptr)`, an lvalue of type `T`.  The type
`T *` does not exist when `T` is a reference, and the expression is then
ill-formed. -/
def lvalue_of : HostType → Option ObjectType
  | .object t => some t
  | .lref _ => none
  | .rref _ => none

/-- The arguments `*static_cast<Types *>(nullptr)...`, when all are well-formed. -/
def lvalues_of : List HostType → Option (List ObjectType)
  | [] => some []
  | t :: rest =>
    match lvalue_of t, lvalues_of rest with
    | some a, some as => some (a :: as)
    | _, _ => none

/-- The implicit conversions that the two overloads of `test` ask of an
argument: a reference bound directly, or the match of an ellipsis. -/
inductive ArgConversion where
  | identity
  | ellipsis
  deriving DecidableEq, Repr

/-- The order of the conversions: the higher, the worse. -/
def ArgConversion.cost : ArgConversion → Nat
  | .identity => 0
  | .ellipsis => 1

/-- A viable overload of `test` for a call: whether it is a specialisation of
the template, the conversion of each argument, whether it returns `void`. -/
structure TestCandidate where
  isTemplate : Bool
  conversions : List ArgConversion
  returnsVoid : Bool
  deriving DecidableEq, Repr

/-- The overload `template<typename... Ts> static auto test(Ts &&... ts) ->
decltype(std::initializer_list<Target>{ts...})`.  Each `Ts` is deduced as an
lvalue reference, which binds its argument directly.  The specialisation
exists when its return type does: when every argument initialises an element
of the list, which an empty list needs of none. -/
def test_template (initialises : ObjectType → Bool) (args : List ObjectType) :
    Option TestCandidate :=
  if args.all initialises then some ⟨true, args.map (fun _ => .identity), false⟩
  else none

/-- The overload `static void test(...)`, viable for every call. -/
def test_ellipsis (args : List ObjectType) : TestCandidate :=
  ⟨false, args.map (fun _ => .ellipsis), true⟩

/-- Whether no argument converts worse for `f` than for `g`. -/
def noWorse (f g : TestCandidate) : Bool :=
  (f.conversions.zip g.conversions).all (fun p => p.1.cost ≤ p.2.cost)

/-- Whether some argument converts better for `f` than for `g`. -/
def someBetter (f g : TestCandidate) : Bool :=
  (f.conversions.zip g.conversions).any (fun p => p.1.cost < p.2.cost)

/-- Whether `f` is a better function than `g`: no argument converts worse, and
either some argument converts better or `f` is not a template specialisation
while `g` is. -/
def betterThan (f g : TestCandidate) : Bool :=
  noWorse f g && (someBetter f g || (!f.isTemplate && g.isTemplate))

/-- The function overload resolution selects: the candidate better than every
other one, if there is one. -/
def bestOf (candidates : List TestCandidate) : Option TestCandidate :=
  candidates.find? (fun f => candidates.all (fun g => g == f || betterThan f g))

/-- The overload that the call `test(args...)` selects. -/
def test_selected (initialises : ObjectType → Bool) (args : List ObjectType) :
    Option TestCandidate :=
  bestOf ((test_template initialises args).toList ++ [test_ellipsis args])

/-- The member `is_typed_sequence<Target, Types...>::value`: the negation of
`std::is_same<decltype(test(*static_cast<Types *>(nullptr)...)), void>`.  The
result is `none` when the expression is ill-formed. -/
def is_typed_sequence (initialises : ObjectType → Bool) (Types : List HostType) :
    Option Bool :=
  match lvalues_of Types with
  | none => none
  | some args =>
    match test_selected initialises args with
    | none => none
    | some f => some (!f.returnsVoid)

/-! ## Auxiliary: reading a decimal numeral back -/

/-- One step of reading a decimal numeral: append a digit to the number read. -/
def readDigit (n : Nat) (c : Char) : Nat := 10 * n + (c.toNat - 48)

/-- The number a list of decimal digits denotes, continuing from `n`. -/
def readDigits (n : Nat) (cs : List Char) : Nat := cs.foldl readDigit n

end BoostLLVM

/-! # Theorems -/

namespace BoostLLVM

/-! ## Auxiliary lemmas -/

theorem readDigit_digitChar (n d : Nat) (h : d < 10) :
    readDigit n (Nat.digitChar d) = 10 * n + d := by
  unfold readDigit
  interval_cases d <;> rfl

theorem readDigits_toDigitsCore (fuel : Nat) :
    ∀ (n : Nat) (ds : List Char), n < fuel →
      readDigits 0 (Nat.toDigitsCore 10 fuel n ds) = readDigits n ds := by
  induction fuel with
  | zero => intro n ds h; omega
  | succ fuel ih =>
    intro n ds h
    have hd : readDigit 0 (Nat.digitChar (n % 10)) = n % 10 := by
      rw [readDigit_digitChar 0 (n % 10) (Nat.mod_lt n (by decide))]; omega
    by_cases h0 : n / 10 = 0
    · have hn : n % 10 = n := by omega
      simp only [Nat.toDigitsCore, h0, if_true, readDigits, List.foldl_cons]
      rw [hd, hn]
    · have hlt : n / 10 < fuel := by omega
      simp only [Nat.toDigitsCore, h0, if_false]
      rw [ih (n / 10) _ hlt]
      simp only [readDigits, List.foldl_cons]
      rw [readDigit_digitChar (n / 10) (n % 10) (Nat.mod_lt n (by decide))]
      congr 1
      omega

theorem readDigits_repr (n : Nat) : readDigits 0 (Nat.repr n).data = n := by
  have h := readDigits_toDigitsCore (n + 1) n [] (Nat.lt_succ_self n)
  simpa [Nat.repr, Nat.toDigits, List.asString, readDigits] using h

theorem toString_nat_injective (a b : Nat) (h : toString a = toString b) : a = b := by
  have h1 : Nat.repr a = Nat.repr b := h
  have h2 := congrArg (fun s => readDigits 0 s.data) h1
  simpa [readDigits_repr] using h2

theorem suffixed_injective (name : String) (a b : Nat)
    (h : suffixed name a = suffixed name b) : a = b := by
  apply toString_nat_injective
  have h1 := congrArg String.data h
  simp only [suffixed, String.data_append, List.append_assoc] at h1
  have h2 := List.append_cancel_left (List.append_cancel_left h1)
  exact String.ext h2

theorem firstFree_finds (taken : List String) (name : String) (fuel : Nat) :
    ∀ k : Nat, (∃ j, k ≤ j ∧ j < k + fuel ∧ suffixed name j ∉ taken) →
      ∃ j, k ≤ j ∧ firstFree taken name fuel k = some (suffixed name j) ∧
        suffixed name j ∉ taken := by
  induction fuel with
  | zero => rintro k ⟨j, h1, h2, -⟩; omega
  | succ fuel ih =>
    rintro k ⟨j, h1, h2, h3⟩
    by_cases hk : suffixed name k ∈ taken
    · have hjk : j ≠ k := by rintro rfl; exact h3 hk
      obtain ⟨i, hi1, hi2, hi3⟩ := ih (k + 1) ⟨j, by omega, by omega, h3⟩
      exact ⟨i, by omega, by simp [firstFree, hk, hi2], hi3⟩
    · exact ⟨k, le_refl k, by simp [firstFree, hk], hk⟩

theorem exists_free_suffix (taken : List String) (name : String) :
    ∃ j, 1 ≤ j ∧ j < 1 + (taken.length + 1) ∧ suffixed name j ∉ taken := by
  by_contra hne
  push_neg at hne
  let cands := (List.range (taken.length + 1)).map (fun i => suffixed name (i + 1))
  have hnodup : cands.Nodup := by
    apply List.Nodup.map _ (List.nodup_range _)
    intro a b hab
    have := suffixed_injective name (a + 1) (b + 1) hab
    omega
  have hsub : cands ⊆ taken := by
    intro c hc
    obtain ⟨i, hi, rfl⟩ := List.mem_map.mp hc
    have hi2 : i < taken.length + 1 := List.mem_range.mp hi
    exact hne (i + 1) (by omega) (by omega)
  have hlen := (List.subperm_of_subset hnodup hsub).length_le
  simp [cands] at hlen

theorem mangle_fresh (taken : List String) (name : String) :
    ∃ j, 1 ≤ j ∧ mangle taken name = some (suffixed name j) ∧ suffixed name j ∉ taken :=
  firstFree_finds taken name (taken.length + 1) 1 (exists_free_suffix taken name)

theorem create_flexible (scope : List String) (x : String) :
    ∃ n, create_symbol scope (flexible x) = .ok (n, n :: scope) ∧ n ∉ scope ∧
      (x ∈ scope → ∃ j, 1 ≤ j ∧ n = suffixed x j) := by
  by_cases hx : x ∈ scope
  · obtain ⟨j, hj, hm, hfree⟩ := mangle_fresh scope x
    exact ⟨suffixed x j, by simp [create_symbol, flexible, hx, hm], hfree,
      fun _ => ⟨j, hj, rfl⟩⟩
  · exact ⟨x, by simp [create_symbol, flexible, hx], hx, fun h => absurd h hx⟩

theorem run_append (l1 l2 : List Instr) :
    ∀ m : Machine, m.run (l1 ++ l2) = (m.run l1).bind (fun m1 => m1.run l2) := by
  induction l1 with
  | nil => intro m; simp [Machine.run]
  | cons i rest ih =>
    intro m
    cases h : m.exec i with
    | none => simp [Machine.run, h]
    | some m1 => simp [Machine.run, h, ih m1]

theorem removeCV_addConst : ∀ t : ObjectType, t.addConst.removeCV = t.removeCV
  | .named _ _ => rfl
  | .pointer _ _ => rfl
  | .tuple _ _ => rfl
  | .array e n => by simp [ObjectType.addConst, ObjectType.removeCV, removeCV_addConst e]
  | .unsized e => by simp [ObjectType.addConst, ObjectType.removeCV, removeCV_addConst e]

theorem removeCV_addVolatile : ∀ t : ObjectType, t.addVolatile.removeCV = t.removeCV
  | .named _ _ => rfl
  | .pointer _ _ => rfl
  | .tuple _ _ => rfl
  | .array e n => by
    simp [ObjectType.addVolatile, ObjectType.removeCV, removeCV_addVolatile e]
  | .unsized e => by
    simp [ObjectType.addVolatile, ObjectType.removeCV, removeCV_addVolatile e]

theorem removeCV_removeCV : ∀ t : ObjectType, t.removeCV.removeCV = t.removeCV
  | .named _ _ => rfl
  | .pointer _ _ => rfl
  | .tuple _ _ => rfl
  | .array e n => by simp [ObjectType.removeCV, removeCV_removeCV e]
  | .unsized e => by simp [ObjectType.removeCV, removeCV_removeCV e]

/-- For `r = v` with `v` of type `value`, overload resolution selects the store
`ref::operator=(value)`; the operator takes its argument by value, and the
copy of an lvalue `v` that this asks for selects the deleted copy constructor
of `value`. -/
theorem store_parameter_needs_copy (isConst : Bool) :
    resolve classes ⟨.value, true, isConst⟩
      ((ref_class.members ++ ref_class.implicitMembers classes).filter
        (fun m => m.kind == .method && m.name == "operator=")) =
      .ok (constMethod .pub .store "operator=" [.value] (.lref .ref)) ∧
    assign classes ref_class ⟨.value, true, isConst⟩ = .error .deleted_function := by
  cases isConst <;> decide

/-! ## The claims -/

/-- C1: a `value` cannot be duplicated.  `class value` declares its copy
constructor, its copy assignment operator and its default constructor as
deleted, the compiler adds no copy or move function of its own, and for every
expression of type `value` (lvalue or rvalue, const or not) both the
initialisation of another `value` from it and the assignment of it to another
`value` select a deleted function and are rejected. -/
theorem C1_value_not_copyable :
    ctor .pub .non_copyable "value" [.const_lref .value] none .deleted ∈ value_class.members ∧
    (⟨.pub, .non_copyable, .method, "operator=", [.const_lref .value],
        some (.lref .value), false, false, none, .deleted⟩ : Member) ∈ value_class.members ∧
    ctor .pub .non_copyable "value" [] none .deleted ∈ value_class.members ∧
    value_class.implicitMembers classes = [] ∧
    defaultConstruct value_class = .error .deleted_function ∧
    ∀ isLvalue isConst : Bool,
      construct classes value_class ⟨.value, isLvalue, isConst⟩ = .error .deleted_function ∧
      assign classes value_class ⟨.value, isLvalue, isConst⟩ = .error .deleted_function := by
  decide

/-- C2: the compound-assignment operators that `class value` declares are the
ten operators `+= -= *= /= %= &= |= ^= <<= >>=`, all private; those that
`class ref` declares are the same ten, all public. -/
theorem C2_compound_assignment_access :
    value_class.compoundAssignments.map (fun m => m.name) = compoundAssignmentOperators ∧
    ref_class.compoundAssignments.map (fun m => m.name) = compoundAssignmentOperators ∧
    compoundAssignmentOperators.length = 10 ∧
    compoundAssignmentOperators.Nodup ∧
    (∀ m ∈ value_class.compoundAssignments, m.access = .priv) ∧
    (∀ m ∈ ref_class.compoundAssignments, m.access = .pub) := by
  decide

/-- C4: on a `value`, `operator[]` is declared to return a `value` and unary
`operator*` a `ref`; `dot` and `arrow`, by index and by name, are declared to
return a `value`; these six are all the accessors of `value`. -/
theorem C4_value_accessor_results :
    value_class.returns "operator[]" [.value] = [some .value] ∧
    value_class.returns "operator*" [] = [some .ref] ∧
    value_class.returns "dot" [.size_t] = [some .value] ∧
    value_class.returns "dot" [.string_ref] = [some .value] ∧
    value_class.returns "arrow" [.size_t] = [some .value] ∧
    value_class.returns "arrow" [.string_ref] = [some .value] ∧
    value_class.accessors =
      [ ("operator[]", [.value]), ("operator*", []), ("dot", [.size_t])
      , ("dot", [.string_ref]), ("arrow", [.size_t]), ("arrow", [.string_ref]) ] := by
  decide

/-- C5: the accessors of `const_ref` are `operator[]`, unary `operator*`, `dot`
by index and by name, `arrow` by index and by name, and each is declared to
return a `const_ref`; `ref` declares the same six accessors and each returns a
`ref`; `operator&`, declared in `const_ref` and found there by lookup from
`ref`, returns a `value`. -/
theorem C5_reference_accessors_preserve_kind :
    const_ref_class.accessors =
      [ ("operator[]", [.value]), ("operator*", []), ("dot", [.size_t])
      , ("dot", [.string_ref]), ("arrow", [.size_t]), ("arrow", [.string_ref]) ] ∧
    ref_class.accessors = const_ref_class.accessors ∧
    (∀ m ∈ const_ref_class.members, m.group = .accessors → m.ret = some .const_ref) ∧
    (∀ m ∈ ref_class.members, m.group = .accessors → m.ret = some .ref) ∧
    const_ref_class.returns "operator&" [] = [some .value] ∧
    (lookup classes 3 "ref" "operator&").map (fun m => m.ret) = [some .value] := by
  decide

/-- C7: for every `k` and `T`, a macro `BOOST_LLVM_INIT_LIST_kD(T)` exists
exactly when `1 ≤ k ≤ 9`, and it expands to `std::initializer_list` nested
exactly `k` times around `T`; the initializer-list overloads of
`type::operator()` have the depths 1 to 9, one each, and so do the
initializer-list constructors of `value`. -/
theorem C7_init_list_depths (k : Nat) (T0 : CppType) :
    BOOST_LLVM_INIT_LIST k T0 =
      (if 1 ≤ k ∧ k ≤ 9 then some (nestedInitializerList k T0) else none) ∧
    initListParams type_call_operators =
      [1, 2, 3, 4, 5, 6, 7, 8, 9].map (fun d => nestedInitializerList d T) ∧
    initListParams value_class.constructors =
      [1, 2, 3, 4, 5, 6, 7, 8, 9].map (fun d => nestedInitializerList d T) ∧
    initListDepths type_call_operators = [1, 2, 3, 4, 5, 6, 7, 8, 9] ∧
    initListDepths value_class.constructors = [1, 2, 3, 4, 5, 6, 7, 8, 9] := by
  refine ⟨?_, by decide, by decide, by decide, by decide⟩
  match k with
  | 0 => rfl
  | 1 => rfl
  | 2 => rfl
  | 3 => rfl
  | 4 => rfl
  | 5 => rfl
  | 6 => rfl
  | 7 => rfl
  | 8 => rfl
  | 9 => rfl
  | n + 10 =>
    have h : ¬ (1 ≤ n + 10 ∧ n + 10 ≤ 9) := by omega
    simp only [h, if_false]
    rfl

/-- C3: load/store duality.  Let the block emitted so far run from `m0` to a
state `m` in which the value `v` evaluates to `x` and the pointer of the
reference `r` to an address `a`.  After `r = v` followed by `(value)r`, the
block still runs, and in the state it reaches the loaded value evaluates to
`x`, the value of `v`. -/
theorem C3_load_store_duality (r : ref) (v : value) (ctx : Context) (m0 m : Machine)
    (x a : Int) (hrun : m0.run ctx.block = some m) (hv : m.eval v.ptr = some x)
    (hr : m.eval r.ptr = some a) :
    ∃ m1, m0.run ((r.store v ctx).1.toconst_ref.load (r.store v ctx).2).2.block = some m1 ∧
      m1.eval ((r.store v ctx).1.toconst_ref.load (r.store v ctx).2).1.ptr = some x := by
  have hr2 : (⟨m.results, fun b => if b = a then some x else m.memory b⟩ : Machine).eval
      r.ptr = some a := by
    cases hp : r.ptr with
    | constant bits => rw [hp] at hr; simpa [Machine.eval] using hr
    | result id => rw [hp] at hr; simpa [Machine.eval] using hr
  refine ⟨⟨fun i => if i = ctx.next then some x else m.results i,
    fun b => if b = a then some x else m.memory b⟩, ?_, ?_⟩
  · simp only [ref.store, const_ref.load, List.append_assoc, List.singleton_append]
    rw [run_append, hrun]
    simp [Machine.run, Machine.exec, hv, hr, hr2]
  · simp [ref.store, const_ref.load, Machine.eval]

/-- C3, at an instance: into an empty block, the constant 5 is stored through a
reference whose pointer is the constant address 0, and loaded back. -/
theorem C3_load_store_duality_witness :
    ((⟨fun _ => none, fun _ => none⟩ : Machine).run ([] : List Instr)).isSome = true ∧
    (⟨fun _ => none, fun _ => none⟩ : Machine).eval (.constant 5) = some 5 ∧
    (⟨fun _ => none, fun _ => none⟩ : Machine).eval (.constant 0) = some 0 ∧
    ∃ m1 : Machine,
      (⟨fun _ => none, fun _ => none⟩ : Machine).run
        [.store (.constant 5) (.constant 0), .load 0 (.constant 0)] = some m1 ∧
      m1.eval (.result 0) = some 5 :=
  ⟨rfl, rfl, rfl,
    C3_load_store_duality ⟨⟨.constant 0, .int_ 32⟩⟩ ⟨.constant 5⟩ ⟨[], 0⟩
      ⟨fun _ => none, fun _ => none⟩ ⟨fun _ => none, fun _ => none⟩ 5 0 rfl rfl rfl⟩

/-- C6, as stated, fails: `const_ref` has a public member that writes the
referenced memory, `operator=(initializer)`. -/
theorem C6_const_ref_has_public_writer :
    ¬ (∀ m ∈ const_ref_class.members, m.access = .pub → writesMemory m = false) := by
  decide

/-- C6, amended: the only public operation of `const_ref` that writes the
referenced memory is the initialising `operator=(initializer)`; `const_ref`
declares no `operator=(value)`, assigning a `value` to it finds no viable
function, and assigning a `const_ref` to it selects the deleted copy
assignment; `ref` declares the public store `operator=(value)`, which
writes. -/
theorem C6_const_ref_writes_only_by_initializer :
    const_ref_class.publicWriters = [("operator=", [.initializer])] ∧
    const_ref_class.overload "operator=" [.value] = [] ∧
    (∀ isLvalue isConst : Bool,
      assign classes const_ref_class ⟨.value, isLvalue, isConst⟩ =
        .error .no_viable_function ∧
      assign classes const_ref_class ⟨.const_ref, isLvalue, isConst⟩ =
        .error .deleted_function) ∧
    ref_class.overload "operator=" [.value] =
      [constMethod .pub .store "operator=" [.value] (.lref .ref)] ∧
    writesMemory (constMethod .pub .store "operator=" [.value] (.lref .ref)) = true := by
  decide

/-- C8: flexible renaming.  In every scope and for every name `x`, creating two
symbols with `flexible(x)` succeeds with two distinct effective names, the
later of which is `x` with a numeric suffix; creating two symbols with the
rigid `symbol_name(x)` fails with `DuplicateName`. -/
theorem C8_flexible_renaming (scope : List String) (x : String) :
    (∃ n1 n2 scope2, create_symbols scope [flexible x, flexible x] = .ok ([n1, n2], scope2) ∧
      n1 ≠ n2 ∧ ∃ j, 1 ≤ j ∧ n2 = suffixed x j) ∧
    create_symbols scope [symbol_name.rigid x, symbol_name.rigid x] =
      .error .DuplicateName := by
  constructor
  · obtain ⟨n1, h1, hfree1, hsuf1⟩ := create_flexible scope x
    obtain ⟨n2, h2, hfree2, hsuf2⟩ := create_flexible (n1 :: scope) x
    have hx : x ∈ n1 :: scope := by
      by_cases hxs : x ∈ scope
      · exact List.mem_cons_of_mem _ hxs
      · have : create_symbol scope (flexible x) = .ok (x, x :: scope) := by
          simp [create_symbol, flexible, hxs]
        rw [this] at h1
        injection h1 with h1
        injection h1 with h1 _
        rw [← h1]
        exact List.mem_cons_self _ _
    refine ⟨n1, n2, n2 :: n1 :: scope, ?_, ?_, hsuf2 hx⟩
    · simp [create_symbols, h1, h2]
    · intro h
      apply hfree2
      rw [← h]
      exact List.mem_cons_self _ _
  · by_cases hxs : x ∈ scope
    · simp [create_symbols, create_symbol, symbol_name.rigid, hxs]
    · simp [create_symbols, create_symbol, symbol_name.rigid, hxs]

/-- The declared results of the control-flow section: its constructs are `if_`,
`do_`, `while_`, `for_`, the two `goto_`, `switch_`, `break_`, `continue_`
and the two `return_`; each function among them is declared to return a
`value`, and `switch_`, a builder whose `case_` and `default_` return the
builder, yields a `value` through its explicit conversion only; in the model
of that conversion the `switch` instruction is appended at the end of the
current block and its result is what is returned. -/
theorem control_flow_declared_results (s : switch_) (ctx : Context) :
    control_flow.map (fun d => d.name) =
      [ "if_", "do_", "while_", "for_", "goto_", "goto_", "switch_"
      , "break_", "continue_", "return_", "return_" ] ∧
    (∀ d ∈ control_flow, d.results = [some .value]) ∧
    switch_struct.conversions = [explicitConversion .pub .builder .value] ∧
    switch_struct.returns "case_" [.int64_t, .label] = [some (.lref .switch_)] ∧
    switch_struct.returns "default_" [.label] = [some (.rref .switch_)] ∧
    (s.toValue ctx).2.block = ctx.block ++
      [.switch ctx.next s.scrutinee.ptr (s.cases.map (fun c => (c.1, c.2.block)))
        (s.default.map (fun l => l.block))] ∧
    (s.toValue ctx).1.ptr = .result ctx.next := by
  refine ⟨by decide, by decide, by decide, by decide, by decide, rfl, rfl⟩

/-- The normalisation in `type::get<T>`: for `T`, `T &`, `T &&`, `const T`,
`volatile T` and `const T &` the return statement creates the same
`get_impl`, and the normalisation is idempotent. -/
theorem get_impl_normalise_invariant (T0 : HostType) :
    get_impl (normalise T0) = get_impl (remove_cv (remove_reference T0)) ∧
    get_impl (normalise T0.addLref) = get_impl (normalise T0) ∧
    get_impl (normalise T0.addRref) = get_impl (normalise T0) ∧
    get_impl (normalise T0.addConst) = get_impl (normalise T0) ∧
    get_impl (normalise T0.addVolatile) = get_impl (normalise T0) ∧
    get_impl (normalise T0.addConst.addLref) = get_impl (normalise T0) ∧
    normalise (normalise T0) = normalise T0 := by
  cases T0 with
  | object t =>
    simp [normalise, remove_reference, remove_cv, HostType.addLref, HostType.addRref,
      HostType.addConst, HostType.addVolatile, removeCV_addConst, removeCV_addVolatile,
      removeCV_removeCV]
  | lref t =>
    simp [normalise, remove_reference, remove_cv, HostType.addLref, HostType.addRref,
      HostType.addConst, HostType.addVolatile, removeCV_removeCV]
  | rref t =>
    simp [normalise, remove_reference, remove_cv, HostType.addLref, HostType.addRref,
      HostType.addConst, HostType.addVolatile, removeCV_removeCV]

/-- The return statement of `type::get<T>` is ill-formed for every `T`: no
`get_impl` converts to `type` implicitly. -/
theorem get_is_ill_formed (T0 : HostType) : get T0 = .error .no_viable_function := by
  simp only [get, return_as_type]
  cases (get_impl (remove_cv (remove_reference T0))).mapping <;> rfl

/-- C10, at the failing input: for `T = int` the normalisation is the identity
and the return statement of `type::get<int>` creates the scalar
`get_impl<int>`, but that object does not convert to `type` implicitly, its
only conversion function being `explicit`, so the instantiation is ill-formed
and `get<int>()` produces nothing. -/
theorem C10_get_return_is_ill_formed :
    normalise (.object (.named CV.none "int")) = .object (.named CV.none "int") ∧
    (get_impl (normalise (.object (.named CV.none "int")))).mapping = .scalar ∧
    get_impl_members .scalar = [explicitConversion .pub .from_host_type_creator .type] ∧
    get (.object (.named CV.none "int")) = .error .no_viable_function := by
  exact ⟨rfl, rfl, rfl, rfl⟩

/-! ## Lemmas on `is_typed_sequence` -/

theorem lvalues_of_objects (ts : List ObjectType) :
    lvalues_of (ts.map HostType.object) = some ts := by
  induction ts with
  | nil => rfl
  | cons t rest ih => simp [lvalues_of, lvalue_of, ih]

theorem noWorse_identity_ellipsis (ts : List ObjectType) :
    ((ts.map (fun _ => ArgConversion.identity)).zip
      (ts.map (fun _ => ArgConversion.ellipsis))).all
        (fun p => decide (p.1.cost ≤ p.2.cost)) = true := by
  induction ts with
  | nil => rfl
  | cons t rest ih =>
    simp only [List.map_cons, List.zip_cons_cons, List.all_cons, ih, Bool.and_true]
    decide

theorem test_selected_empty (initialises : ObjectType → Bool) :
    test_selected initialises [] = some (test_ellipsis []) := by
  rfl

theorem test_selected_all (initialises : ObjectType → Bool) (t : ObjectType)
    (rest : List ObjectType) (h : (t :: rest).all initialises = true) :
    test_selected initialises (t :: rest) =
      some ⟨true, (t :: rest).map (fun _ => .identity), false⟩ := by
  have hw := noWorse_identity_ellipsis rest
  simp only [test_selected, test_template, h, if_true, Option.toList, List.singleton_append,
    bestOf, test_ellipsis]
  simp [List.find?, betterThan, noWorse, someBetter, ArgConversion.cost, hw]

theorem test_selected_not_all (initialises : ObjectType → Bool) (args : List ObjectType)
    (h : args.all initialises = false) :
    test_selected initialises args = some (test_ellipsis args) := by
  simp [test_selected, test_template, h, Option.toList, bestOf, List.find?]

/-- For a pack of object types, `is_typed_sequence<Target, Types...>::value` is
true exactly when the pack is not empty and every type of it initialises an
element of `std::initializer_list<Target>`. -/
theorem is_typed_sequence_of_objects (initialises : ObjectType → Bool)
    (ts : List ObjectType) :
    is_typed_sequence initialises (ts.map HostType.object) =
      some (!ts.isEmpty && ts.all initialises) := by
  unfold is_typed_sequence
  rw [lvalues_of_objects]
  cases ts with
  | nil => rfl
  | cons t rest =>
    cases h : (t :: rest).all initialises with
    | true => simp [test_selected_all initialises t rest h]
    | false => simp [test_selected_not_all initialises (t :: rest) h, test_ellipsis]

/-- With a reference type anywhere in the pack the member has no value. -/
theorem is_typed_sequence_of_reference (initialises : ObjectType → Bool)
    (before after : List HostType) (t : ObjectType) :
    is_typed_sequence initialises (before ++ HostType.lref t :: after) = none ∧
    is_typed_sequence initialises (before ++ HostType.rref t :: after) = none := by
  have key : ∀ r : HostType, lvalue_of r = none →
      lvalues_of (before ++ r :: after) = none := by
    intro r hr
    induction before with
    | nil => simp [lvalues_of, hr]
    | cons b rest ih =>
      cases hb : lvalue_of b <;> simp [lvalues_of, hb, ih]
  constructor
  · simp [is_typed_sequence, key (.lref t) rfl]
  · simp [is_typed_sequence, key (.rref t) rfl]

/-! ## The claims on `details.hpp` -/

/-- C11, as stated, fails: built from an `array_ref<string_ref>`, here the view
of the one element `x` in buffer 0 of the caller, a `string_refs` shows that
element, but its view designates the buffer of the caller and not its own
`m_storage`, which is empty. -/
theorem C11_base_input_views_caller_storage :
    (string_refs.build (fun s : String => s) (.base ⟨.caller 0, 1⟩)).elements
      (fun _ => ["x"]) = ["x"] ∧
    (string_refs.build (fun s : String => s) (.base ⟨.caller 0, 1⟩)).base.data = .caller 0 ∧
    (string_refs.build (fun s : String => s) (.base ⟨.caller 0, 1⟩)).base.data ≠ .m_storage ∧
    (string_refs.build (fun s : String => s) (.base ⟨.caller 0, 1⟩)).m_storage = [] := by
  decide

/-- C11, amended: a `string_refs` built from a sequence of string-convertible
elements has the size of the input and shows its elements in order.  Built by
the constructor template, its view designates its own `m_storage`, which holds
the converted elements; built from an `array_ref<string_ref>`, it is that view
with an empty `m_storage`.  A default-constructed `string_refs` shows no
element and has size 0. -/
theorem C11_string_refs_views_its_input {σ : Type} (convert : σ → String)
    (memory : Nat → List String) :
    (∀ input : StringSequence σ,
      (string_refs.build convert input).base.size = input.size ∧
      (string_refs.build convert input).elements memory = input.elements memory convert) ∧
    (∀ names : List σ,
      (string_refs.build convert (.other names)).elements memory = names.map convert ∧
      (string_refs.build convert (.other names)).base.size = names.length ∧
      (string_refs.build convert (.other names)).base.data = .m_storage ∧
      (string_refs.build convert (.other names)).m_storage = names.map convert) ∧
    (∀ names : array_ref,
      string_refs.build convert (.base names) = ⟨names, []⟩) ∧
    string_refs.default.elements memory = [] ∧
    string_refs.default.base.size = 0 := by
  have hother : ∀ names : List σ,
      (string_refs.build convert (.other names)).elements memory = names.map convert := by
    intro names
    simp [string_refs.build, string_refs.of_sequence, string_refs.elements, array_ref.read,
      array_ref.of_vector]
  refine ⟨?_, ?_, fun _ => rfl, rfl, rfl⟩
  · intro input
    cases input with
    | base names => exact ⟨rfl, rfl⟩
    | other names =>
      refine ⟨?_, hother names⟩
      simp [string_refs.build, string_refs.of_sequence, array_ref.of_vector,
        StringSequence.size]
  · intro names
    refine ⟨hother names, ?_, rfl, rfl⟩
    simp [string_refs.build, string_refs.of_sequence, array_ref.of_vector]

/-- C12, at the failing input: for the pack of the one type `type &` the member
`value` has no value, the argument `*static_cast<type & *>(nullptr)` being
ill-formed, whatever initialises the target; for the pack of the one type
`type`, which initialises a `type`, it is true. -/
theorem C12_reference_in_pack_has_no_value :
    is_typed_sequence (fun _ => true) [.lref (.named CV.none "type")] = none ∧
    is_typed_sequence (fun _ => true) [.object (.named CV.none "type")] = some true := by
  exact ⟨rfl, rfl⟩

end BoostLLVM
